import Mathlib

/-!
Verification of the continuous self-improvement control loop
(`src/architecture/self-improvement-algorithms.py`).

The Python module is shallowly embedded below: pure helper functions become
Lean functions on `ℚ`/`String`/lists, the effectful executor and the learning
loop become explicit trace-producing functions, and exceptions raised by the
external collaborators (the category-specific implementers, the per-stage
awaits of the loop) are injected through explicit failure oracles.

The five kind-specific proposal generators
(`generate_success_factor_improvements`, ...) and `record_improvement` are
called by the module but have no bodies in the repository; following the
spec they are modelled as abstract parameters ("a kind-specific generator
maps its payload into zero or more proposals") and as a recorded event.
-/

/-- The `ImprovementType` enum of the source. -/
inductive ImprovementType where
  | PERFORMANCE
  | ACCURACY
  | EFFICIENCY
  | COST
  | RELIABILITY
  | SCALABILITY
deriving DecidableEq

/-- The `LearningMode` enum of the source. -/
inductive LearningMode where
  | SUPERVISED
  | UNSUPERVISED
  | REINFORCEMENT
  | TRANSFER
  | FEDERATED
deriving DecidableEq

/-- A Python value as far as `calculate_confidence` inspects it: a list
(of further values) or a non-list scalar carrying its own truthiness.
`len(data)` is the list length; `not data` is falsity of the truthiness. -/
inductive PyData where
  | list (xs : List PyData)
  | scalar (truthy : Bool)

/-- Python truthiness of a `PyData` value: a list is truthy iff non-empty,
a scalar carries its truthiness. -/
def is_truthy : PyData → Bool
  | .list xs => !xs.isEmpty
  | .scalar b => b

/-- `len(data) if isinstance(data, list) else 1` from `calculate_confidence`. -/
def sample_size : PyData → ℕ
  | .list xs => xs.length
  | .scalar _ => 1

/-- `calculate_confidence` (source lines 372-380):
`if not data: return 0.0`, then `min(1.0, sample_size / 100.0)`. -/
def calculate_confidence (data : PyData) : ℚ :=
  if is_truthy data = false then 0
  else min 1 ((sample_size data : ℚ) / 100)

/-- `impact_score` (source lines 382-384):
`{'low': 0.3, 'medium': 0.6, 'high': 1.0}.get(impact, 0.0)`. -/
def impact_score (impact : String) : ℚ :=
  if impact = "low" then 3 / 10
  else if impact = "medium" then 6 / 10
  else if impact = "high" then 1
  else 0

/-- `feasibility_score` (source lines 386-388):
`{'low': 1.0, 'medium': 0.6, 'high': 0.3}.get(effort, 0.0)`. -/
def feasibility_score (effort : String) : ℚ :=
  if effort = "low" then 1
  else if effort = "medium" then 6 / 10
  else if effort = "high" then 3 / 10
  else 0

/-- The `SystemOptimization` dataclass of the source.  The three ordinal
fields are Python strings, as in the source. -/
structure SystemOptimization where
  optimization_type : ImprovementType
  component : String
  current_value : ℚ
  target_value : ℚ
  improvement_percentage : ℚ
  implementation_effort : String
  expected_impact : String
  risk_level : String
  implementation_steps : List String
  validation_criteria : List String
deriving DecidableEq

/-- The sort key of `generate_improvements` (source lines 241-244):
`impact_score(x.expected_impact) * feasibility_score(x.implementation_effort)`. -/
def improvement_priority (o : SystemOptimization) : ℚ :=
  impact_score o.expected_impact * feasibility_score o.implementation_effort

/-- `improvements.sort(key=..., reverse=True)`: a stable descending sort by
`improvement_priority`.  Python's list sort is stable and `reverse=True`
preserves stability, so its output is the unique stable descending
rearrangement, which insertion sort computes. -/
def sort_reverse (l : List SystemOptimization) : List SystemOptimization :=
  List.insertionSort
    (fun a b => improvement_priority b ≤ improvement_priority a) l

/-- A pattern dict as built by `analyze_patterns`:
`{'type': ..., 'data': ..., 'confidence': ...}`. -/
structure Pattern where
  type : String
  data : PyData
  confidence : ℚ

/-- Modelled from the spec: the five kind-specific generator methods
(`generate_success_factor_improvements`, `generate_failure_mode_improvements`,
`generate_resource_improvements`, `generate_agent_improvements`,
`generate_temporal_improvements`) are invoked by `generate_improvements` but
have no bodies in the repository.  The spec says each "maps its payload into
zero or more proposals", so they are abstract functions from payload to
proposal list. -/
structure Generators where
  success_factor : PyData → List SystemOptimization
  failure_mode : PyData → List SystemOptimization
  resource : PyData → List SystemOptimization
  agent : PyData → List SystemOptimization
  temporal : PyData → List SystemOptimization

/-- The `if/elif` dispatch on `pattern['type']` inside `generate_improvements`
(source lines 219-238); an unknown type string matches no branch and
contributes nothing. -/
def dispatch_pattern (gen : Generators) (p : Pattern) : List SystemOptimization :=
  if p.type = "success_factors" then gen.success_factor p.data
  else if p.type = "failure_modes" then gen.failure_mode p.data
  else if p.type = "resource_optimization" then gen.resource p.data
  else if p.type = "agent_performance" then gen.agent p.data
  else if p.type = "temporal_patterns" then gen.temporal p.data
  else []

/-- The accumulation loop of `generate_improvements` (source lines 210-238):
`if pattern['confidence'] < 0.7: continue`, else extend with the dispatched
generator's output.  The comparison is against the literal `0.7` in the
source. -/
def raw_improvements (gen : Generators) : List Pattern → List SystemOptimization
  | [] => []
  | p :: rest =>
      if p.confidence < 7 / 10 then raw_improvements gen rest
      else dispatch_pattern gen p ++ raw_improvements gen rest

/-- The configuration dict.  Every recognized key is optional, as for a
Python dict consulted with `.get`. -/
structure Config where
  learning_interval : Option ℕ
  confidence_threshold : Option ℚ
  auto_improvement_enabled : Option Bool
  max_concurrent_experiments : Option ℕ
  safety_checks_enabled : Option Bool
  rollback_on_failure : Option Bool
  learning_modes : Option (List LearningMode)
  optimization_targets : Option (List ImprovementType)

/-- `SELF_IMPROVEMENT_CONFIG` (source lines 424-441). -/
def SELF_IMPROVEMENT_CONFIG : Config :=
  { learning_interval := some 300
    confidence_threshold := some (7 / 10)
    auto_improvement_enabled := some true
    max_concurrent_experiments := some 5
    safety_checks_enabled := some true
    rollback_on_failure := some true
    learning_modes := some [.SUPERVISED, .UNSUPERVISED, .REINFORCEMENT]
    optimization_targets := some [.PERFORMANCE, .EFFICIENCY, .RELIABILITY] }

/-- `generate_improvements` (source lines 208-246).  The method has access to
`self.config` (hence the `cfg` argument) but its body never reads it: the
confidence gate compares against the literal `0.7` and the result is the
stable descending sort of the accumulated proposals. -/
def generate_improvements (cfg : Config) (gen : Generators)
    (patterns : List Pattern) : List SystemOptimization :=
  sort_reverse (raw_improvements gen patterns)

/-- Modelled from the spec: the confidence gate as §4.3 words it, reading the
threshold from the configuration ("patterns with confidence < 0.7
(configurable threshold) are skipped entirely"), defaulting to 0.7 when the
key is absent.  This is the refinement counterpart of `raw_improvements`. -/
def raw_improvements_spec (cfg : Config) (gen : Generators) :
    List Pattern → List SystemOptimization
  | [] => []
  | p :: rest =>
      if p.confidence < cfg.confidence_threshold.getD (7 / 10) then
        raw_improvements_spec cfg gen rest
      else dispatch_pattern gen p ++ raw_improvements_spec cfg gen rest

/-- Modelled from the spec: `generate_improvements` as the spec describes it,
with the configurable confidence gate of `raw_improvements_spec`. -/
def generate_improvements_spec (cfg : Config) (gen : Generators)
    (patterns : List Pattern) : List SystemOptimization :=
  sort_reverse (raw_improvements_spec cfg gen patterns)

/-- The eligibility test of `execute_safe_improvements` (source lines
251-253): `risk_level == 'low' and implementation_effort == 'low' and
expected_impact in ['medium', 'high']`. -/
def eligible_for_auto_apply (o : SystemOptimization) : Bool :=
  o.risk_level == "low" && o.implementation_effort == "low" &&
    (o.expected_impact == "medium" || o.expected_impact == "high")

/-- The `if/elif` dispatch of `implement_improvement` (source lines 263-270):
the category whose implementer is invoked, `none` when no branch matches
(`ACCURACY` and `COST` have no branch). -/
def dispatchTarget : ImprovementType → Option ImprovementType
  | .PERFORMANCE => some .PERFORMANCE
  | .EFFICIENCY => some .EFFICIENCY
  | .RELIABILITY => some .RELIABILITY
  | .SCALABILITY => some .SCALABILITY
  | _ => none

/-- What one call of `implement_improvement` does, given a failure oracle
`fails` saying whether the (externally implemented) category implementer
raises on this proposal: which implementer was invoked, which proposals were
passed to `record_improvement`, and whether an exception propagated out.
`record_improvement` runs after the dispatch, so a raising implementer
prevents the recording. -/
structure ImplResult where
  dispatched : List (SystemOptimization × ImprovementType)
  recorded : List SystemOptimization
  raised : Bool

/-- `implement_improvement` (source lines 261-273) under the failure oracle
`fails`.  With no matching category branch (`ACCURACY`, `COST`) nothing is
dispatched and nothing can raise; `record_improvement` still runs. -/
def implement_improvement (fails : SystemOptimization → Bool)
    (o : SystemOptimization) : ImplResult :=
  match dispatchTarget o.optimization_type with
  | some t => if fails o then ⟨[(o, t)], [], true⟩ else ⟨[(o, t)], [o], false⟩
  | none => ⟨[], [o], false⟩

/-- Whether the attempt on `o` raises: an implementer must actually be
invoked for an exception to occur. -/
def raises (fails : SystemOptimization → Bool) (o : SystemOptimization) : Bool :=
  (dispatchTarget o.optimization_type).isSome && fails o

/-- The observable trace of one `execute_safe_improvements` call:
`attempted` lists the proposals passed to `implement_improvement`,
`dispatched` the category-implementer invocations, `recorded` the
`record_improvement` calls, `info_log` the `logger.info` successes and
`error_log` the `logger.error` caught failures. -/
structure ExecTrace where
  attempted : List SystemOptimization
  dispatched : List (SystemOptimization × ImprovementType)
  recorded : List SystemOptimization
  info_log : List SystemOptimization
  error_log : List SystemOptimization
deriving DecidableEq

/-- `execute_safe_improvements` (source lines 248-259) under the failure
oracle `fails`: the `for` loop tests each proposal against the eligibility
condition, calls `implement_improvement` on eligible ones inside
`try/except`, logging success with `logger.info` and a caught exception with
`logger.error`, and then continues with the next proposal. -/
def execute_safe_improvements (fails : SystemOptimization → Bool) :
    List SystemOptimization → ExecTrace
  | [] => ⟨[], [], [], [], []⟩
  | o :: rest =>
      let tr := execute_safe_improvements fails rest
      if eligible_for_auto_apply o then
        let r := implement_improvement fails o
        { attempted := o :: tr.attempted
          dispatched := r.dispatched ++ tr.dispatched
          recorded := r.recorded ++ tr.recorded
          info_log := (if r.raised then [] else [o]) ++ tr.info_log
          error_log := (if r.raised then [o] else []) ++ tr.error_log }
      else tr

/-- One row of the SQL result consumed by `collect_learning_outcomes`
(source lines 119-133). -/
structure Row where
  project_id : String
  outcome_type : String
  impact_score : ℚ
  completion_hours : ℚ
  lessons_learned : Option (List String)
  patterns_identified : Option (List PyData)
  recommendations : Option (List String)
  created_at : ℕ

/-- The `LearningOutcome` dataclass of the source. -/
structure LearningOutcome where
  project_id : String
  outcome_type : String
  success_score : ℚ
  completion_time : ℚ
  resource_utilization : List (String × ℚ)
  quality_metrics : List (String × ℚ)
  lessons_learned : List String
  patterns_identified : List PyData
  improvement_suggestions : List String
  timestamp : ℕ

/-- `collect_learning_outcomes` (source lines 117-157): each fetched row is
shaped into a `LearningOutcome` with
`success_score = max(0.0, min(1.0, row['impact_score']))`; the per-project
metric fetches are the abstract maps `resource_metrics`/`quality_metrics`,
and the `or []` defaults replace a SQL `NULL` by the empty list. -/
def collect_learning_outcomes
    (resource_metrics quality_metrics : String → List (String × ℚ))
    (rows : List Row) : List LearningOutcome :=
  rows.map (fun row =>
    { project_id := row.project_id
      outcome_type := row.outcome_type
      success_score := max 0 (min 1 row.impact_score)
      completion_time := row.completion_hours
      resource_utilization := resource_metrics row.project_id
      quality_metrics := quality_metrics row.project_id
      lessons_learned := row.lessons_learned.getD []
      patterns_identified := row.patterns_identified.getD []
      improvement_suggestions := row.recommendations.getD []
      timestamp := row.created_at })

/-- The six awaited stages of one cycle of `continuous_learning_loop`
(source lines 92-108), in their source order. -/
inductive Stage where
  | collecting
  | analyzing
  | generating
  | executing
  | updating
  | health_check
deriving DecidableEq

/-- The stage order of one cycle body. -/
def stage_sequence : List Stage :=
  [.collecting, .analyzing, .generating, .executing, .updating, .health_check]

/-- Position of a stage in the cycle body. -/
def stage_index : Stage → ℕ
  | .collecting => 0
  | .analyzing => 1
  | .generating => 2
  | .executing => 3
  | .updating => 4
  | .health_check => 5

/-- The observable outcome of one `while True` iteration: the stages that
were entered, whether `logger.error` fired, and the argument of the final
`asyncio.sleep`. -/
structure CycleResult where
  executed : List Stage
  error_logged : Bool
  sleep_seconds : ℕ
deriving DecidableEq

/-- `self.config.get('learning_interval', 300)` (source line 111). -/
def learning_interval_of (cfg : Config) : ℕ :=
  cfg.learning_interval.getD 300

/-- One iteration of `continuous_learning_loop` (source lines 90-115) under
a failure injection: `failure = some s` means the first unhandled exception
of this cycle is raised inside stage `s`.  The `try` block runs the stages
in order until the raising one; the `except` arm logs the error and sleeps
60 seconds; a clean cycle sleeps the configured learning interval. -/
def run_cycle (cfg : Config) (failure : Option Stage) : CycleResult :=
  match failure with
  | none => ⟨stage_sequence, false, learning_interval_of cfg⟩
  | some s => ⟨stage_sequence.takeWhile (fun t => t != s) ++ [s], true, 60⟩

/-- The `while True` loop of `continuous_learning_loop`: one `CycleResult`
per iteration, each iteration independent of the failures of the earlier
ones (the `except` arm swallows every exception). -/
def continuous_learning_loop (cfg : Config)
    (failures : List (Option Stage)) : List CycleResult :=
  failures.map (run_cycle cfg)

/-- Whether a label string is one of the three ordinal labels keyed by the
score dictionaries. -/
def recognized_label (s : String) : Bool :=
  s == "low" || s == "medium" || s == "high"

/-- Whether both ranking labels of a proposal are recognized. -/
def recognized_labels (o : SystemOptimization) : Bool :=
  recognized_label o.expected_impact && recognized_label o.implementation_effort

/-- A concrete proposal fixture. -/
def mkOpt (t : ImprovementType) (c risk effort impact : String) : SystemOptimization :=
  { optimization_type := t
    component := c
    current_value := 100
    target_value := 150
    improvement_percentage := 50
    implementation_effort := effort
    expected_impact := impact
    risk_level := risk
    implementation_steps := []
    validation_criteria := [] }

/-- A proposal produced by the concrete generator fixture below. -/
def p_res : SystemOptimization := mkOpt .PERFORMANCE "api_endpoints" "low" "low" "high"

/-- A pattern of confidence 0.8, below a configured threshold of 0.9 but
above the hard-coded 0.7. -/
def pat0 : Pattern :=
  { type := "resource_optimization"
    data := .list [.scalar true]
    confidence := 8 / 10 }

/-- `SELF_IMPROVEMENT_CONFIG` with the confidence threshold raised to 0.9. -/
def cfg_strict : Config :=
  { SELF_IMPROVEMENT_CONFIG with confidence_threshold := some (9 / 10) }

/-- A concrete generator fixture: the resource-optimization kind yields one
proposal, the other kinds none. -/
def gen0 : Generators :=
  { success_factor := fun _ => []
    failure_mode := fun _ => []
    resource := fun _ => [p_res]
    agent := fun _ => []
    temporal := fun _ => [] }

/-- An eligible accuracy-category proposal, exercising the missing dispatch
branch of `implement_improvement`. -/
def p_acc : SystemOptimization := mkOpt .ACCURACY "prediction_model" "low" "low" "high"

/-- Three eligible proposals over distinct components, for the
failure-isolation scenario. -/
def w_a : SystemOptimization := mkOpt .PERFORMANCE "alpha" "low" "low" "high"

/-- Second proposal of the failure-isolation scenario (its implementer will
be made to raise). -/
def w_b : SystemOptimization := mkOpt .EFFICIENCY "beta" "low" "low" "medium"

/-- Third proposal of the failure-isolation scenario. -/
def w_c : SystemOptimization := mkOpt .RELIABILITY "gamma" "low" "low" "high"

/-- A failure oracle under which exactly the implementer working on
component `beta` raises. -/
def fail_beta : SystemOptimization → Bool := fun o => o.component == "beta"

/-! ## Ranking: the stable descending sort of `generate_improvements` -/

theorem sort_reverse_sorted (l : List SystemOptimization) :
    List.Sorted (fun a b => improvement_priority b ≤ improvement_priority a)
      (sort_reverse l) := by
  haveI : IsTotal SystemOptimization
      (fun a b => improvement_priority b ≤ improvement_priority a) :=
    ⟨fun a b => le_total (improvement_priority b) (improvement_priority a)⟩
  haveI : IsTrans SystemOptimization
      (fun a b => improvement_priority b ≤ improvement_priority a) :=
    ⟨fun _ _ _ hab hbc => le_trans hbc hab⟩
  exact List.sorted_insertionSort _ l

theorem sort_reverse_perm (l : List SystemOptimization) :
    List.Perm (sort_reverse l) l :=
  List.perm_insertionSort _ l

theorem filter_orderedInsert_priority (s : ℚ) (a : SystemOptimization)
    (l : List SystemOptimization) :
    (List.orderedInsert (fun x y => improvement_priority y ≤ improvement_priority x)
        a l).filter (fun o => decide (improvement_priority o = s))
      = if improvement_priority a = s then
          a :: l.filter (fun o => decide (improvement_priority o = s))
        else l.filter (fun o => decide (improvement_priority o = s)) := by
  induction l with
  | nil =>
      by_cases h : improvement_priority a = s <;>
        simp [List.orderedInsert, List.filter_cons, h]
  | cons b t ih =>
      simp only [List.orderedInsert]
      by_cases hr : improvement_priority b ≤ improvement_priority a
      · rw [if_pos hr]
        by_cases ha : improvement_priority a = s <;>
          by_cases hb : improvement_priority b = s <;>
            simp [List.filter_cons, ha, hb]
      · rw [if_neg hr]
        by_cases ha : improvement_priority a = s
        · have hb : ¬ improvement_priority b = s := by
            intro e
            exact hr (by rw [e, ha])
          simp [List.filter_cons, ha, hb, ih]
        · by_cases hb : improvement_priority b = s <;>
            simp [List.filter_cons, ha, hb, ih]

theorem filter_sort_reverse (s : ℚ) (l : List SystemOptimization) :
    (sort_reverse l).filter (fun o => decide (improvement_priority o = s))
      = l.filter (fun o => decide (improvement_priority o = s)) := by
  induction l with
  | nil => rfl
  | cons a t ih =>
      have : sort_reverse (a :: t)
          = List.orderedInsert
              (fun x y => improvement_priority y ≤ improvement_priority x) a
              (sort_reverse t) := rfl
      rw [this, filter_orderedInsert_priority]
      by_cases ha : improvement_priority a = s <;> simp [ha, List.filter_cons, ih]

/-! ## The executor trace, field by field -/

theorem attempted_eq (fails : SystemOptimization → Bool)
    (l : List SystemOptimization) :
    (execute_safe_improvements fails l).attempted
      = l.filter eligible_for_auto_apply := by
  induction l with
  | nil => rfl
  | cons o rest ih =>
      by_cases h : eligible_for_auto_apply o = true <;>
        simp [execute_safe_improvements, List.filter_cons, h, ih]

theorem recorded_eq (fails : SystemOptimization → Bool)
    (l : List SystemOptimization) :
    (execute_safe_improvements fails l).recorded
      = l.filter (fun o => eligible_for_auto_apply o && !raises fails o) := by
  induction l with
  | nil => rfl
  | cons o rest ih =>
      by_cases h : eligible_for_auto_apply o = true <;>
        cases hd : dispatchTarget o.optimization_type <;>
          by_cases hf : fails o = true <;>
            simp [execute_safe_improvements, implement_improvement, raises,
              List.filter_cons, h, hd, hf, ih]

theorem info_log_eq (fails : SystemOptimization → Bool)
    (l : List SystemOptimization) :
    (execute_safe_improvements fails l).info_log
      = l.filter (fun o => eligible_for_auto_apply o && !raises fails o) := by
  induction l with
  | nil => rfl
  | cons o rest ih =>
      by_cases h : eligible_for_auto_apply o = true <;>
        cases hd : dispatchTarget o.optimization_type <;>
          by_cases hf : fails o = true <;>
            simp [execute_safe_improvements, implement_improvement, raises,
              List.filter_cons, h, hd, hf, ih]

theorem error_log_eq (fails : SystemOptimization → Bool)
    (l : List SystemOptimization) :
    (execute_safe_improvements fails l).error_log
      = l.filter (fun o => eligible_for_auto_apply o && raises fails o) := by
  induction l with
  | nil => rfl
  | cons o rest ih =>
      by_cases h : eligible_for_auto_apply o = true <;>
        cases hd : dispatchTarget o.optimization_type <;>
          by_cases hf : fails o = true <;>
            simp [execute_safe_improvements, implement_improvement, raises,
              List.filter_cons, h, hd, hf, ih]

theorem dispatched_types (fails : SystemOptimization → Bool)
    (l : List SystemOptimization) (o : SystemOptimization) (t : ImprovementType)
    (h : (o, t) ∈ (execute_safe_improvements fails l).dispatched) :
    dispatchTarget o.optimization_type = some t := by
  induction l with
  | nil => simp [execute_safe_improvements] at h
  | cons b rest ih =>
      by_cases hb : eligible_for_auto_apply b = true
      · cases hd : dispatchTarget b.optimization_type <;>
          by_cases hf : fails b = true <;>
            · simp [execute_safe_improvements, implement_improvement, hb, hd, hf] at h
              first
              | exact ih h
              | rcases h with ⟨ho, ht⟩ | h
                · subst ho; subst ht; exact hd
                · exact ih h
      · simp [execute_safe_improvements, hb] at h
        exact ih h

/-! ## Label scores -/

theorem recognized_label_cases {s : String} (h : recognized_label s = true) :
    s = "low" ∨ s = "medium" ∨ s = "high" := by
  simpa [recognized_label, or_assoc] using h

theorem impact_score_zero_of_unrecognized {s : String}
    (h1 : s ≠ "low") (h2 : s ≠ "medium") (h3 : s ≠ "high") :
    impact_score s = 0 := by
  simp [impact_score, h1, h2, h3]

theorem feasibility_score_zero_of_unrecognized {s : String}
    (h1 : s ≠ "low") (h2 : s ≠ "medium") (h3 : s ≠ "high") :
    feasibility_score s = 0 := by
  simp [feasibility_score, h1, h2, h3]

theorem priority_zero_of_unrecognized {o : SystemOptimization}
    (h : recognized_labels o = false) : improvement_priority o = 0 := by
  rcases Bool.and_eq_false_iff.mp h with hi | he
  · rw [recognized_label] at hi
    simp only [Bool.or_eq_false_iff, beq_eq_false_iff_ne, ne_eq] at hi
    rw [improvement_priority,
      impact_score_zero_of_unrecognized hi.1.1 hi.1.2 hi.2, zero_mul]
  · rw [recognized_label] at he
    simp only [Bool.or_eq_false_iff, beq_eq_false_iff_ne, ne_eq] at he
    rw [improvement_priority,
      feasibility_score_zero_of_unrecognized he.1.1 he.1.2 he.2, mul_zero]

theorem priority_lb_of_recognized {o : SystemOptimization}
    (h : recognized_labels o = true) : 9 / 100 ≤ improvement_priority o := by
  rw [recognized_labels, Bool.and_eq_true] at h
  rcases recognized_label_cases h.1 with h1 | h1 | h1 <;>
    rcases recognized_label_cases h.2 with h2 | h2 | h2 <;>
      simp [improvement_priority, impact_score, feasibility_score, h1, h2] <;>
        norm_num

/-! ## Claim C1: the autonomous-application gate -/

/-- C1: a proposal is autonomously applied by `execute_safe_improvements`
(that is, passed to `implement_improvement`) if and only if its risk level is
`low`, its implementation effort is `low` and its expected impact is `medium`
or `high`; in particular a proposal whose expected impact is `low` is never
attempted, whatever its risk and effort. -/
theorem execute_safe_improvements_gate (fails : SystemOptimization → Bool)
    (l : List SystemOptimization) :
    (execute_safe_improvements fails l).attempted
        = l.filter eligible_for_auto_apply
    ∧ (∀ o : SystemOptimization,
        eligible_for_auto_apply o = true ↔
          o.risk_level = "low" ∧ o.implementation_effort = "low" ∧
            (o.expected_impact = "medium" ∨ o.expected_impact = "high"))
    ∧ (∀ o ∈ (execute_safe_improvements fails l).attempted,
        o.expected_impact ≠ "low") := by
  refine ⟨attempted_eq fails l, ?_, ?_⟩
  · intro o
    simp [eligible_for_auto_apply, and_assoc]
  · intro o ho
    rw [attempted_eq] at ho
    have h := (List.mem_filter.mp ho).2
    rw [eligible_for_auto_apply] at h
    simp only [Bool.and_eq_true, Bool.or_eq_true, beq_iff_eq] at h
    rcases h.2 with h3 | h3 <;> simp [h3]

/-! ## Claim C5: per-proposal failure isolation -/

/-- C5: within one `execute_safe_improvements` call, an exception raised
while applying one eligible proposal is caught (it lands in the error log)
and does not prevent any later proposal in the list from being gate-tested
and attempted: the attempted list is still exactly the eligible sublist of
the whole input. -/
theorem execute_safe_improvements_failure_isolated
    (fails : SystemOptimization → Bool) (l1 l2 : List SystemOptimization)
    (p : SystemOptimization) (hp : eligible_for_auto_apply p = true)
    (hf : raises fails p = true) :
    (execute_safe_improvements fails (l1 ++ p :: l2)).attempted
        = l1.filter eligible_for_auto_apply
            ++ p :: l2.filter eligible_for_auto_apply
    ∧ p ∈ (execute_safe_improvements fails (l1 ++ p :: l2)).error_log := by
  constructor
  · rw [attempted_eq, List.filter_append, List.filter_cons, if_pos hp]
  · rw [error_log_eq]
    refine List.mem_filter.mpr ⟨by simp, ?_⟩
    simp [hp, hf]

/-- C5 witness: of three eligible proposals the middle one's implementer
raises; the first and third are nevertheless both attempted. -/
theorem execute_safe_improvements_failure_isolated_witness :
    (execute_safe_improvements fail_beta ([w_a] ++ w_b :: [w_c])).attempted
        = [w_a].filter eligible_for_auto_apply
            ++ w_b :: [w_c].filter eligible_for_auto_apply
    ∧ w_b ∈ (execute_safe_improvements fail_beta ([w_a] ++ w_b :: [w_c])).error_log :=
  execute_safe_improvements_failure_isolated fail_beta [w_a] [w_c] w_b
    (by decide) (by decide)

/-! ## Claim C9: recording of attempts -/

/-- C9 counterexample: an eligible performance proposal whose implementer
raises is attempted, yet `record_improvement` is never reached — the source
calls `record_improvement` after the category dispatch inside the same
`try`, so a failing attempt produces no outcome record. -/
theorem record_after_failed_attempt_cex :
    (execute_safe_improvements (fun _ => true) [w_a]).attempted = [w_a]
    ∧ (execute_safe_improvements (fun _ => true) [w_a]).recorded = [] := by
  decide

/-- C9 (amended): an outcome record is written after every successful
application; a failed application is caught and logged with
`logger.error` but produces no outcome record.  Every attempted proposal
shows up either in the records or in the error log. -/
theorem execute_safe_improvements_recording (fails : SystemOptimization → Bool)
    (l : List SystemOptimization) :
    (execute_safe_improvements fails l).recorded
        = l.filter (fun o => eligible_for_auto_apply o && !raises fails o)
    ∧ (execute_safe_improvements fails l).error_log
        = l.filter (fun o => eligible_for_auto_apply o && raises fails o)
    ∧ ∀ o ∈ (execute_safe_improvements fails l).attempted,
        o ∈ (execute_safe_improvements fails l).recorded
          ∨ o ∈ (execute_safe_improvements fails l).error_log := by
  refine ⟨recorded_eq fails l, error_log_eq fails l, ?_⟩
  intro o ho
  rw [attempted_eq] at ho
  have hm := List.mem_filter.mp ho
  by_cases hr : raises fails o = true
  · right
    rw [error_log_eq]
    exact List.mem_filter.mpr ⟨hm.1, by simp [hm.2, hr]⟩
  · left
    rw [recorded_eq]
    have hr' : raises fails o = false := by
      revert hr
      cases raises fails o <;> simp
    exact List.mem_filter.mpr ⟨hm.1, by simp [hm.2, hr']⟩

/-! ## Claim C8: accuracy and cost proposals -/

/-- C8 counterexample: an eligible accuracy-category proposal is not left
for manual review — no category implementer runs for it, but
`implement_improvement` still reaches `record_improvement` (it is persisted
as an applied improvement) and `logger.info` still reports it as
automatically implemented. -/
theorem accuracy_not_left_for_review_cex :
    (execute_safe_improvements (fun _ => false) [p_acc]).dispatched = []
    ∧ (execute_safe_improvements (fun _ => false) [p_acc]).recorded = [p_acc]
    ∧ (execute_safe_improvements (fun _ => false) [p_acc]).info_log = [p_acc] := by
  decide

/-- C8 (amended): no category-specific implementer is ever invoked for an
accuracy- or cost-category proposal; however such a proposal is not left for
manual review: when eligible it still goes through `implement_improvement`,
is recorded via `record_improvement`, and is logged as automatically
implemented, with no actual change performed. -/
theorem accuracy_cost_never_dispatched (fails : SystemOptimization → Bool)
    (l : List SystemOptimization) :
    (∀ o t, (o, t) ∈ (execute_safe_improvements fails l).dispatched →
        o.optimization_type ≠ ImprovementType.ACCURACY ∧
          o.optimization_type ≠ ImprovementType.COST)
    ∧ ∀ o ∈ l, eligible_for_auto_apply o = true →
        (o.optimization_type = ImprovementType.ACCURACY ∨
          o.optimization_type = ImprovementType.COST) →
        o ∈ (execute_safe_improvements fails l).recorded
          ∧ o ∈ (execute_safe_improvements fails l).info_log := by
  constructor
  · intro o t h
    have hd := dispatched_types fails l o t h
    cases ht : o.optimization_type <;> simp [ht] <;>
      rw [ht] at hd <;> simp [dispatchTarget] at hd
  · intro o ho he hc
    have hr : raises fails o = false := by
      rcases hc with hc | hc <;> simp [raises, dispatchTarget, hc]
    constructor
    · rw [recorded_eq]
      exact List.mem_filter.mpr ⟨ho, by simp [he, hr]⟩
    · rw [info_log_eq]
      exact List.mem_filter.mpr ⟨ho, by simp [he, hr]⟩

/-! ## Confidence -/

theorem conf_of_falsy {d : PyData} (h : is_truthy d = false) :
    calculate_confidence d = 0 := by
  simp [calculate_confidence, h]

theorem conf_of_truthy {d : PyData} (h : is_truthy d = true) :
    calculate_confidence d = min 1 ((sample_size d : ℚ) / 100) := by
  simp [calculate_confidence, h]

theorem conf_formula_sat (n : ℕ) : min 1 ((n : ℚ) / 100) = 1 ↔ 100 ≤ n := by
  rw [min_eq_left_iff, le_div_iff₀ (by norm_num : (0 : ℚ) < 100), one_mul]
  exact_mod_cast Iff.rfl

theorem conf_list (xs : List PyData) :
    calculate_confidence (PyData.list xs) = min 1 ((xs.length : ℚ) / 100) := by
  cases xs with
  | nil =>
      rw [conf_of_falsy (by simp [is_truthy])]
      rw [show ((List.length ([] : List PyData) : ℚ)) / 100 = 0 by norm_num]
      rw [min_eq_right (by norm_num : (0 : ℚ) ≤ 1)]
  | cons x t =>
      rw [conf_of_truthy (by simp [is_truthy])]
      rfl

/-- C3 counterexample: `calculate_confidence` is not monotone in sample size
over all payloads.  A one-element list and a falsy scalar (e.g. Python's
`0`) both have sample size 1, yet the list scores `0.01` while the falsy
scalar hits the `if not data` early return and scores `0.0`. -/
theorem calculate_confidence_not_monotone_cex :
    sample_size (PyData.list [PyData.scalar true]) ≤ sample_size (PyData.scalar false)
    ∧ ¬ (calculate_confidence (PyData.list [PyData.scalar true])
          ≤ calculate_confidence (PyData.scalar false)) := by
  have h1 : calculate_confidence (PyData.list [PyData.scalar true]) = 1 / 100 := by
    rw [conf_of_truthy (by simp [is_truthy])]
    rw [show ((sample_size (PyData.list [PyData.scalar true]) : ℚ)) / 100 = 1 / 100 by
      norm_num [sample_size]]
    rw [min_eq_right (by norm_num : (1 : ℚ) / 100 ≤ 1)]
  have h2 : calculate_confidence (PyData.scalar false) = 0 :=
    conf_of_falsy (by simp [is_truthy])
  refine ⟨le_refl _, ?_⟩
  rw [h1, h2]
  norm_num

/-- C3 (amended): `calculate_confidence` returns `0.0` on an empty (falsy)
payload and `min(1.0, sample_size/100.0)` on any non-empty payload, where
sample size is the list length for a list and 1 for a non-list; it is
monotonically non-decreasing in sample size across non-empty payloads (not
across all payloads, by the counterexample above), and equals `1.0` exactly
when the sample size is at least 100. -/
theorem calculate_confidence_spec :
    (∀ d : PyData, is_truthy d = false → calculate_confidence d = 0)
    ∧ (∀ d : PyData, is_truthy d = true →
        calculate_confidence d = min 1 ((sample_size d : ℚ) / 100))
    ∧ (∀ xs : List PyData,
        calculate_confidence (PyData.list xs) = min 1 ((xs.length : ℚ) / 100))
    ∧ (∀ d e : PyData, is_truthy d = true → is_truthy e = true →
        sample_size d ≤ sample_size e →
        calculate_confidence d ≤ calculate_confidence e)
    ∧ (∀ d : PyData, calculate_confidence d = 1 ↔ 100 ≤ sample_size d) := by
  refine ⟨fun d h => conf_of_falsy h, fun d h => conf_of_truthy h, conf_list, ?_, ?_⟩
  · intro d e hd he hle
    rw [conf_of_truthy hd, conf_of_truthy he]
    have hc : ((sample_size d : ℚ)) ≤ (sample_size e : ℚ) := by exact_mod_cast hle
    exact min_le_min (le_refl 1) (by gcongr)
  · intro d
    by_cases ht : is_truthy d = true
    · rw [conf_of_truthy ht]
      exact conf_formula_sat (sample_size d)
    · have hf : is_truthy d = false := by
        revert ht
        cases is_truthy d <;> simp
      rw [conf_of_falsy hf]
      have hss : sample_size d ≤ 1 := by
        cases d with
        | list xs => cases xs <;> simp_all [is_truthy, sample_size]
        | scalar b => simp [sample_size]
      constructor
      · intro h
        norm_num at h
      · intro h
        omega

/-! ## Claim C4: ranking of generated improvements -/

/-- C4: `generate_improvements` returns the proposals in descending order of
`impact_score(expected_impact) * feasibility_score(implementation_effort)`,
as a permutation of the accumulated proposals, stably — proposals of equal
score keep their encounter order (the filter at any fixed score value is
unchanged) — and the score tables are low→0.3, medium→0.6, high→1.0 for
impact and low→1.0, medium→0.6, high→0.3 for feasibility.  Being a pure
function of its input, the output is deterministic. -/
theorem generate_improvements_ranking (cfg : Config) (gen : Generators)
    (ps : List Pattern) :
    List.Sorted (fun a b => improvement_priority b ≤ improvement_priority a)
        (generate_improvements cfg gen ps)
    ∧ List.Perm (generate_improvements cfg gen ps) (raw_improvements gen ps)
    ∧ (∀ s : ℚ,
        (generate_improvements cfg gen ps).filter
            (fun o => decide (improvement_priority o = s))
          = (raw_improvements gen ps).filter
              (fun o => decide (improvement_priority o = s)))
    ∧ impact_score "low" = 3 / 10 ∧ impact_score "medium" = 6 / 10
    ∧ impact_score "high" = 1 ∧ feasibility_score "low" = 1
    ∧ feasibility_score "medium" = 6 / 10 ∧ feasibility_score "high" = 3 / 10 := by
  refine ⟨sort_reverse_sorted _, sort_reverse_perm _,
    fun s => filter_sort_reverse s _, ?_, ?_, ?_, ?_, ?_, ?_⟩ <;>
    simp [impact_score, feasibility_score]

/-! ## Claim C10: unrecognized ordinal labels -/

/-- C10: `impact_score` and `feasibility_score` return `0.0` (the `.get`
default, so no error is raised) on every label outside low/medium/high, a
proposal carrying such a label gets ranking score `0.0`, and in the output
of `generate_improvements` no proposal with unrecognized labels ever
precedes one whose labels are both recognized. -/
theorem unrecognized_labels_rank_last :
    (∀ s : String, s ≠ "low" → s ≠ "medium" → s ≠ "high" →
        impact_score s = 0 ∧ feasibility_score s = 0)
    ∧ (∀ o : SystemOptimization, recognized_labels o = false →
        improvement_priority o = 0)
    ∧ (∀ (cfg : Config) (gen : Generators) (ps : List Pattern),
        List.Pairwise
          (fun a b => recognized_labels b = true → recognized_labels a = true)
          (generate_improvements cfg gen ps)) := by
  refine ⟨?_, ?_, ?_⟩
  · intro s h1 h2 h3
    exact ⟨impact_score_zero_of_unrecognized h1 h2 h3,
      feasibility_score_zero_of_unrecognized h1 h2 h3⟩
  · intro o h
    exact priority_zero_of_unrecognized h
  · intro cfg gen ps
    have hs := sort_reverse_sorted (raw_improvements gen ps)
    refine List.Pairwise.imp ?_ hs
    intro a b hle hb
    by_cases ha : recognized_labels a = true
    · exact ha
    · have ha' : recognized_labels a = false := by
        revert ha
        cases recognized_labels a <;> simp
      have h0 : improvement_priority a = 0 := priority_zero_of_unrecognized ha'
      have h9 : 9 / 100 ≤ improvement_priority b := priority_lb_of_recognized hb
      have : (9 : ℚ) / 100 ≤ 0 := h0 ▸ le_trans h9 hle
      norm_num at this

/-! ## Claim C2: the confidence gate and the configured threshold -/

/-- C2 (code bug evidence): the source declares `confidence_threshold` in
`SELF_IMPROVEMENT_CONFIG` but `generate_improvements` never reads it — the
gate compares against the literal `0.7`.  With the threshold configured to
`0.9`, a pattern of confidence `0.8` is below the configured threshold, yet
the code still derives a proposal from it; the spec-modelled gate
(`generate_improvements_spec`) derives none. -/
theorem confidence_threshold_ignored_cex :
    pat0.confidence < cfg_strict.confidence_threshold.getD (7 / 10)
    ∧ generate_improvements cfg_strict gen0 [pat0] = [p_res]
    ∧ generate_improvements_spec cfg_strict gen0 [pat0] = [] := by
  refine ⟨?_, ?_, ?_⟩
  · show (8 : ℚ) / 10 < (Option.some ((9 : ℚ) / 10)).getD (7 / 10)
    norm_num
  · show sort_reverse (raw_improvements gen0 [pat0]) = [p_res]
    have h : raw_improvements gen0 [pat0] = [p_res] := by
      rw [raw_improvements]
      rw [if_neg (by norm_num [pat0] : ¬ pat0.confidence < 7 / 10)]
      simp [dispatch_pattern, pat0, gen0, raw_improvements]
    rw [h]
    rfl
  · show sort_reverse (raw_improvements_spec cfg_strict gen0 [pat0]) = []
    have h : raw_improvements_spec cfg_strict gen0 [pat0] = [] := by
      rw [raw_improvements_spec]
      rw [if_pos (by norm_num [pat0, cfg_strict, SELF_IMPROVEMENT_CONFIG])]
      rfl
    rw [h]
    rfl

/-! ## Claim C6: ingestion clamps the success score -/

/-- C6: every stored `success_score` is the raw `impact_score` clamped into
`[0, 1]` — a raw value above 1 is stored as 1, below 0 as 0, in-range
unchanged — so every constructed `LearningOutcome` has its score in
`[0, 1]`. -/
theorem collect_learning_outcomes_clamps
    (rm qm : String → List (String × ℚ)) (rows : List Row) :
    ((collect_learning_outcomes rm qm rows).map (fun o => o.success_score)
        = rows.map (fun r => max 0 (min 1 r.impact_score)))
    ∧ (∀ o ∈ collect_learning_outcomes rm qm rows,
        0 ≤ o.success_score ∧ o.success_score ≤ 1)
    ∧ (∀ x : ℚ, (1 < x → max 0 (min 1 x) = 1)
        ∧ (x < 0 → max 0 (min 1 x) = 0)
        ∧ (0 ≤ x → x ≤ 1 → max 0 (min 1 x) = x)) := by
  refine ⟨?_, ?_, ?_⟩
  · rw [collect_learning_outcomes, List.map_map]
    rfl
  · intro o ho
    rw [collect_learning_outcomes] at ho
    obtain ⟨r, _, rfl⟩ := List.mem_map.mp ho
    exact ⟨le_max_left 0 _, max_le (by norm_num) (min_le_left 1 _)⟩
  · intro x
    refine ⟨?_, ?_, ?_⟩
    · intro h
      rw [min_eq_left (le_of_lt h), max_eq_right (by norm_num : (0 : ℚ) ≤ 1)]
    · intro h
      rw [min_eq_right (le_of_lt (lt_trans h zero_lt_one)),
        max_eq_left (le_of_lt h)]
    · intro h0 h1
      rw [min_eq_right h1, max_eq_right h0]

/-! ## Claim C7: failure recovery of the learning loop -/

/-- C7: no cycle failure escapes or ends the `while True` loop — every
injected per-cycle failure still yields a cycle result and leaves all later
cycles unaffected; a failing cycle logs the error, runs no stage past the
failing one, and sleeps the 60-second recovery interval instead of the
configured learning interval (default 300, so recovery is strictly
shorter); every cycle, in particular the one after a failure, starts at the
collection stage. -/
theorem continuous_learning_loop_failure_recovery (cfg : Config)
    (failures : List (Option Stage)) (s : Stage) :
    (continuous_learning_loop cfg failures).length = failures.length
    ∧ (∀ i : ℕ, (continuous_learning_loop cfg failures)[i]?
        = (failures[i]?).map (run_cycle cfg))
    ∧ (run_cycle cfg (some s)).error_logged = true
    ∧ (run_cycle cfg (some s)).sleep_seconds = 60
    ∧ (run_cycle cfg none).sleep_seconds = learning_interval_of cfg
    ∧ learning_interval_of SELF_IMPROVEMENT_CONFIG = 300
    ∧ 60 < learning_interval_of SELF_IMPROVEMENT_CONFIG
    ∧ (∀ r ∈ continuous_learning_loop cfg failures,
        r.executed.head? = some Stage.collecting)
    ∧ (∀ t ∈ (run_cycle cfg (some s)).executed,
        stage_index t ≤ stage_index s) := by
  refine ⟨by simp [continuous_learning_loop], ?_, rfl, rfl, rfl, rfl,
    by decide, ?_, ?_⟩
  · intro i
    simp [continuous_learning_loop]
  · intro r hr
    obtain ⟨f, _, rfl⟩ := List.mem_map.mp hr
    cases f with
    | none => rfl
    | some s2 => cases s2 <;> rfl
  · have hexec : (run_cycle cfg (some s)).executed
        = stage_sequence.takeWhile (fun t => t != s) ++ [s] := rfl
    rw [hexec]
    cases s <;> decide
